import Mathlib

/-!
Verification of the ohhert-orbis capture-and-schedule subsystem.

The definitions below are a shallow embedding of the TypeScript source:
`src/lib/screenshot.ts` (capture engine), `src/lib/cron-scheduler.ts`
(job scheduler), `src/lib/validation.ts` (schedule-expression check),
`src/app/api/screenshot/run/route.ts` (execution aggregation) and
`src/app/api/cron-jobs/[id]/trigger/route.ts` (manual trigger).

External collaborators (Playwright browser runtime, process environment,
filesystem, clock, node-cron's internal validity check) are modelled as an
explicit environment record of oracles; every `await`ed collaborator step
that can throw is an `Option String` oracle (`some err` = the step throws
with message `err`).  Exceptions are modelled with `Except String`;
timestamps on the scheduler side are epoch milliseconds (`Nat`), the ISO
rendering of the source being injective and order preserving.
-/

namespace Orbis

/-- JS falsiness of an optional string value: `undefined`/`null`/`""` are
falsy, any non-empty string is truthy (`!x` in the source). -/
def falsy : Option String → Bool
  | none => true
  | some s => s == ""

/-- `ScreenshotUrl` of `src/lib/db.ts` (the fields the engine reads). -/
structure ScreenshotUrl where
  name : String
  url : String
deriving DecidableEq

/-- `ScreenshotTarget` of `src/lib/db.ts` (the fields the engine reads). -/
structure ScreenshotTarget where
  name : String
  requiresLogin : Bool
  loginUrl : Option String := none
  usernameSelector : Option String := none
  passwordSelector : Option String := none
  submitSelector : Option String := none
  usernameEnvKey : Option String := none
  passwordEnvKey : Option String := none
  urls : Option (List ScreenshotUrl) := none
deriving DecidableEq

/-- `ScreenshotResult` of `src/lib/screenshot.ts` (one CaptureOutcome). -/
structure ScreenshotResult where
  success : Bool
  filename : Option String := none
  filepath : Option String := none
  error : Option String := none
  urlName : Option String := none
deriving DecidableEq

/-- The capture engine's collaborators: the process environment, the
browser runtime's fallible steps, the filesystem and the clock.  Each
`Option String` valued oracle reports whether the corresponding awaited
step of `src/lib/screenshot.ts` throws and with which message. -/
structure BrowserEnv where
  procEnv : String → Option String
  launchFails : Option String := none
  pageSetupFails : Option String := none
  gotoFails : String → Option String := fun _ => none
  fillFails : String → Option String := fun _ => none
  submitFails : String → Option String := fun _ => none
  mkdirFails : Option String := none
  screenshotFails : String → Option String := fun _ => none
  nowIso : String := "1970-01-01T00:00:00.000Z"
  cwd : String := "/app"

/-- Character class kept by `sanitizeFilename`'s first replace:
`[^a-zA-Z0-9\s-_]` is removed, so letters, digits, whitespace, `-` and
`_` are kept. -/
def keepFilenameChar (c : Char) : Bool :=
  (c ≥ 'a' && c ≤ 'z') || (c ≥ 'A' && c ≤ 'Z') || (c ≥ '0' && c ≤ '9') ||
    c.isWhitespace || c == '-' || c == '_'

/-- Second replace of `sanitizeFilename`: every run of whitespace becomes a
single `-` (the regex `\s+` with replacement `-`).  The boolean records
whether the previous character was part of a whitespace run. -/
def collapseWhitespace (prevWs : Bool) : List Char → List Char
  | [] => []
  | c :: cs =>
    if c.isWhitespace then
      if prevWs then collapseWhitespace true cs
      else '-' :: collapseWhitespace true cs
    else c :: collapseWhitespace false cs

/-- `sanitizeFilename` of `src/lib/screenshot.ts` lines 46-51: drop the
characters outside `[a-zA-Z0-9\s-_]`, collapse whitespace runs to `-`,
lowercase. -/
def sanitizeFilename (name : String) : String :=
  String.mk ((collapseWhitespace false (name.toList.filter keepFilenameChar)).map Char.toLower)

/-- Date part of an ISO timestamp: `toISOString().split('T')[0]`
(`ensureScreenshotDir`, line 34). -/
def isoDatePart (iso : String) : String :=
  String.mk (iso.toList.takeWhile (fun c => c ≠ 'T'))

/-- Timestamp slug of `captureScreenshotForUrl` line 94:
`toISOString().replace(/[:.]/g, '-')`. -/
def isoTimestampSlug (iso : String) : String :=
  String.mk (iso.toList.map (fun c => if c == ':' || c == '.' then '-' else c))

/-- `ensureScreenshotDir` of lines 33-44: one directory per calendar day
under `cwd/screenshots` (the `mkdir` throw is reported separately by the
`mkdirFails` oracle). -/
def ensureScreenshotDir (E : BrowserEnv) : String :=
  E.cwd ++ "/screenshots/" ++ isoDatePart E.nowIso

/-- Credential lookup of `performLogin`, `src/lib/screenshot.ts` lines
62-67: read both named values from the process environment; throw when
either is absent or empty (JS falsy), with a message built from the two
key names. -/
def resolveCredentials (env : String → Option String) (usernameKey passwordKey : String) :
    Except String (String × String) :=
  let username := env usernameKey
  let password := env passwordKey
  if falsy username || falsy password then
    .error ("Missing credentials in environment variables: " ++ usernameKey ++ ", " ++ passwordKey)
  else
    .ok (username.getD "", password.getD "")

/-- `performLogin` of `src/lib/screenshot.ts` lines 53-83: configuration
checks, credential lookup, then navigate / fill / fill / submit, each step
able to throw via its oracle.  The result is `.error e` exactly when the
source function throws `e`. -/
def performLogin (E : BrowserEnv) (t : ScreenshotTarget) : Except String Unit :=
  if falsy t.loginUrl || falsy t.usernameSelector || falsy t.passwordSelector ||
      falsy t.submitSelector then
    .error "Missing login configuration"
  else if falsy t.usernameEnvKey || falsy t.passwordEnvKey then
    .error "Missing environment variable keys for credentials"
  else
    match resolveCredentials E.procEnv (t.usernameEnvKey.getD "") (t.passwordEnvKey.getD "") with
    | .error e => .error e
    | .ok _ =>
      match E.gotoFails (t.loginUrl.getD "") with
      | some e => .error e
      | none =>
        match E.fillFails (t.usernameSelector.getD "") with
        | some e => .error e
        | none =>
          match E.fillFails (t.passwordSelector.getD "") with
          | some e => .error e
          | none =>
            match E.submitFails (t.submitSelector.getD "") with
            | some e => .error e
            | none => .ok ()

/-- `captureScreenshotForUrl` of `src/lib/screenshot.ts` lines 85-120: the
whole body is inside `try`, the `catch` returns a failed result with the
thrown message and the URL's label, so this function never throws. -/
def captureScreenshotForUrl (E : BrowserEnv) (t : ScreenshotTarget) (u : ScreenshotUrl) :
    ScreenshotResult :=
  match E.gotoFails u.url with
  | some e => { success := false, error := some e, urlName := some u.name }
  | none =>
    match E.mkdirFails with
    | some e => { success := false, error := some e, urlName := some u.name }
    | none =>
      let filename := sanitizeFilename t.name ++ "-" ++ sanitizeFilename u.name ++ "-" ++
        isoTimestampSlug E.nowIso ++ ".png"
      let filepath := ensureScreenshotDir E ++ "/" ++ filename
      match E.screenshotFails u.url with
      | some e => { success := false, error := some e, urlName := some u.name }
      | none =>
        { success := true, filename := some filename, filepath := some filepath,
          urlName := some u.name }

/-- The `ScreenshotService`'s only mutable field: `private browser:
Browser | null`.  `browserOpen = true` models a live browser handle. -/
structure SvcState where
  browserOpen : Bool
deriving DecidableEq

/-- `initBrowser` of lines 17-24: launch a browser only when the handle is
null; `chromium.launch` may throw (the `launchFails` oracle). -/
def initBrowser (E : BrowserEnv) (s : SvcState) : Except String SvcState :=
  if s.browserOpen then .ok s
  else
    match E.launchFails with
    | some e => .error e
    | none => .ok { browserOpen := true }

/-- `closeBrowser` of lines 26-31: close the handle and null it; a no-op
when it is already null. -/
def closeBrowser (s : SvcState) : SvcState :=
  if s.browserOpen then { browserOpen := false } else s

/-- URL loop and zero-URL check of `captureScreenshot` lines 140-155: the
synthetic failure for a target with no (or an absent) URL list, otherwise
one `captureScreenshotForUrl` result per URL in order. -/
def captureUrls (E : BrowserEnv) (t : ScreenshotTarget) : List ScreenshotResult :=
  match t.urls with
  | none => [{ success := false, error := some "No URLs defined for this target" }]
  | some [] => [{ success := false, error := some "No URLs defined for this target" }]
  | some us => us.map (captureScreenshotForUrl E t)

/-- `captureScreenshot` of `src/lib/screenshot.ts` lines 122-167: init
browser, open a page and set the viewport, optional login, zero-URL check,
then the per-URL loop.  The surrounding `catch` turns any throw from the
steps before the loop into one target-level failed result, so the function
never throws; the `finally` closes only the page, not the browser, so the
service state is returned next to the results. -/
def captureScreenshot (E : BrowserEnv) (s : SvcState) (t : ScreenshotTarget) :
    List ScreenshotResult × SvcState :=
  match initBrowser E s with
  | .error e => ([{ success := false, error := some e }], s)
  | .ok s1 =>
    match E.pageSetupFails with
    | some e => ([{ success := false, error := some e }], s1)
    | none =>
      if t.requiresLogin then
        match performLogin E t with
        | .error e => ([{ success := false, error := some e }], s1)
        | .ok _ => (captureUrls E t, s1)
      else (captureUrls E t, s1)

/-- Target loop of `captureAllScreenshots` lines 175-178: sequential,
concatenating every target's result list. -/
def captureTargetsLoop (E : BrowserEnv) : SvcState → List ScreenshotTarget →
    List ScreenshotResult × SvcState
  | s, [] => ([], s)
  | s, t :: ts =>
    let r := captureScreenshot E s t
    let rest := captureTargetsLoop E r.2 ts
    (r.1 ++ rest.1, rest.2)

/-- `captureAllScreenshots` of `src/lib/screenshot.ts` lines 169-184: one
browser for the batch, sequential targets, `closeBrowser` in `finally`
(run both on normal return and when `initBrowser`'s throw propagates). -/
def captureAllScreenshots (E : BrowserEnv) (s : SvcState) (targets : List ScreenshotTarget) :
    Except String (List ScreenshotResult) × SvcState :=
  match initBrowser E s with
  | .error e => (.error e, closeBrowser s)
  | .ok s1 =>
    let r := captureTargetsLoop E s1 targets
    (.ok r.1, closeBrowser r.2)

/-- `CronJobTarget` of `src/lib/db.ts`. -/
structure CronJobTarget where
  cronJobId : Nat
  targetId : Nat
deriving DecidableEq

/-- `CronJob` of `src/lib/db.ts`; `lastRun`/`nextRun` are epoch
milliseconds (the source stores their ISO rendering), and the optional
`cronJobTargets` array is a list (`undefined` and `[]` take the same
branches in every modelled code path). -/
structure CronJob where
  id : Nat
  name : String
  cronExpression : String
  enabled : Bool
  lastRun : Option Nat := none
  nextRun : Option Nat := none
  cronJobTargets : List CronJobTarget := []
deriving DecidableEq

/-- The scheduler's collaborators: the clock (`Date.now()` in epoch
milliseconds) and node-cron's internal expression check (external library:
`cron.schedule` throws inside `calculateNextRun` exactly when the
expression is invalid for node-cron). -/
structure SchedEnv where
  nowMs : Nat
  nodeCronValid : String → Bool

/-- `calculateNextRun` of `src/lib/cron-scheduler.ts` lines 221-241: when
`cron.schedule` accepts the expression, return now + 60000 ms (the
source's "simple approximation based on current time + 1 minute"); when it
throws, the `catch` returns now + 3600000 ms. -/
def calculateNextRun (E : SchedEnv) (cronExpression : String) : Nat :=
  if E.nodeCronValid cronExpression then E.nowMs + 60000
  else E.nowMs + 3600000

/-- One row of the placeholder execution report of
`executeScreenshotsForTargets`. -/
structure TargetResult where
  targetId : Nat
  success : Bool
  error : Option String := none
deriving DecidableEq

/-- The `{ successCount, failureCount, results }` record returned by both
copies of `executeScreenshotsForTargets`. -/
structure TargetRunSummary where
  successCount : Nat
  failureCount : Nat
  results : List TargetResult
deriving DecidableEq

/-- `executeScreenshotsForTargets` of `src/lib/cron-scheduler.ts` lines
180-216: a placeholder ("TODO: Implement actual screenshot execution")
that reports success for every target id without calling the capture
engine; its `catch` branch is unreachable since nothing in the `try`
throws. -/
def schedExecuteScreenshotsForTargets (targetIds : List Nat) : TargetRunSummary :=
  { successCount := targetIds.length
    failureCount := 0
    results := targetIds.map (fun id => { targetId := id, success := true }) }

/-- `executeScreenshotsForTargets` of
`src/app/api/cron-jobs/[id]/trigger/route.ts` lines 94-147: the route's
own duplicated placeholder; its loop pushes a success row per target id
(the loop body's `try` contains nothing that throws). -/
def triggerExecuteScreenshotsForTargets (targetIds : List Nat) : TargetRunSummary :=
  { successCount := targetIds.length
    failureCount := 0
    results := targetIds.map (fun id => { targetId := id, success := true }) }

/-- `executeCronJob` of `src/lib/cron-scheduler.ts` lines 131-175: write
`lastRun := now` and `nextRun := calculateNextRun(expression)` to the
catalog, then run the (placeholder) screenshot execution when the job has
associated targets.  The catalog write is modelled as the returned updated
job record; the summary is what the source logs. -/
def executeCronJob (E : SchedEnv) (job : CronJob) : CronJob × Option TargetRunSummary :=
  let job1 := { job with lastRun := some E.nowMs,
                         nextRun := some (calculateNextRun E job.cronExpression) }
  if job.cronJobTargets.length > 0 then
    let targetIds := job.cronJobTargets.map (fun cjt => cjt.targetId)
    (job1, some (schedExecuteScreenshotsForTargets targetIds))
  else
    (job1, none)

/-- Manual-trigger `POST` of `src/app/api/cron-jobs/[id]/trigger/route.ts`
lines 27-80, given the job fetched from the catalog: reject a job with no
associated targets, run the route's placeholder execution, then write only
`lastRun := now` (`db.updateCronJob(id, { lastRun })`, line 53) — the
route never writes `nextRun`. -/
def triggerCronJobPOST (E : SchedEnv) (job : CronJob) : Except String (CronJob × TargetRunSummary) :=
  if job.cronJobTargets.length == 0 then
    .error "Cron job has no associated targets"
  else
    let targetIds := job.cronJobTargets.map (fun cjt => cjt.targetId)
    let summary := triggerExecuteScreenshotsForTargets targetIds
    .ok ({ job with lastRun := some E.nowMs }, summary)

/-- Whitespace-separated fields of a (trimmed) string, as
`value.trim().split(/\s+/)` yields them for a trimmed input: runs of
whitespace separate fields and produce no empty fields.  The accumulator
holds the current field's characters in reverse. -/
def wsFieldsAux (acc : List Char) : List Char → List (List Char)
  | [] => if acc.isEmpty then [] else [acc.reverse]
  | c :: cs =>
    if c.isWhitespace then
      if acc.isEmpty then wsFieldsAux [] cs
      else acc.reverse :: wsFieldsAux [] cs
    else wsFieldsAux (c :: acc) cs

/-- `value.trim()` over the character list. -/
def trimChars (l : List Char) : List Char :=
  ((l.dropWhile Char.isWhitespace).reverse.dropWhile Char.isWhitespace).reverse

/-- Field count of `cronJobValidationSchema.cronExpression`'s custom check:
`value.trim().split(/\s+/).length`. -/
def cronFieldCount (value : String) : Nat :=
  (wsFieldsAux [] (trimChars value.toList)).length

/-- The `cronExpression` rule of `cronJobValidationSchema`
(`src/lib/validation.ts` lines 231-247) as `Validator.validateValue`
applies it to a string value: `required`, `minLength 9`, `maxLength 100`,
then the custom five-field check.  The returned list is the rule's error
messages; the expression is accepted exactly when it is empty. -/
def cronExpressionErrors (value : String) : List String :=
  if value == "" then ["cronExpression is required"]
  else
    ((if value.length < 9 then ["cronExpression must be at least 9 characters long"] else []) ++
     (if value.length > 100 then ["cronExpression must be no more than 100 characters long"]
      else [])) ++
    (if cronFieldCount value == 5 then []
     else ["Invalid cron expression format. Use format: \"minute hour day month weekday\" (e.g., \"0 9 * * 1-5\" for 9 AM weekdays)"])

/-- `ExecutionSummary` as the run route reports it: `totalTargets`,
`successCount`, `failureCount` and the full result list. -/
structure ExecutionSummary where
  totalTargets : Nat
  successCount : Nat
  failureCount : Nat
  results : List ScreenshotResult
deriving DecidableEq

/-- Aggregation of `src/app/api/screenshot/run/route.ts` lines 75-94 (and
of `src/unnamed/part_005` lines 28-41): `successCount` and `failureCount`
filter the engine's result list, `totalTargets` is `targets.length`, and
the result list is returned unchanged. -/
def summarizeRun (targets : List ScreenshotTarget) (results : List ScreenshotResult) :
    ExecutionSummary :=
  { totalTargets := targets.length
    successCount := (results.filter (fun r => r.success)).length
    failureCount := (results.filter (fun r => !r.success)).length
    results := results }

/-- Modelled from the spec: one field of a 5-field schedule expression —
`*`, a number, a range `a-b`, or a step `*/n` (§6 "Schedule expression
format").  The repository delegates expression semantics to the external
node-cron library, so the matching semantics is taken from the spec's
words. -/
inductive CronField where
  | star : CronField
  | num : Nat → CronField
  | range : Nat → Nat → CronField
  | step : Nat → CronField
deriving DecidableEq

/-- Modelled from the spec: a 5-field schedule expression — minute, hour,
day-of-month, month, day-of-week (§6). -/
structure CronExpr where
  minute : CronField
  hour : CronField
  dom : CronField
  month : CronField
  dow : CronField
deriving DecidableEq

/-- Modelled from the spec: the calendar fields of a timestamp that a
schedule expression constrains. -/
structure CronTime where
  minute : Nat
  hour : Nat
  dom : Nat
  month : Nat
  dow : Nat
deriving DecidableEq

/-- Modelled from the spec: whether one field accepts a value — `*`
accepts anything, a number only itself, `a-b` the closed interval, `*/n`
the multiples of `n`. -/
def cronFieldMatches : CronField → Nat → Bool
  | .star, _ => true
  | .num n, v => v == n
  | .range a b, v => a ≤ v && v ≤ b
  | .step n, v => n != 0 && v % n == 0

/-- Modelled from the spec: a timestamp matches a schedule expression when
every field accepts the corresponding calendar value. -/
def cronMatches (e : CronExpr) (t : CronTime) : Bool :=
  cronFieldMatches e.minute t.minute && cronFieldMatches e.hour t.hour &&
    cronFieldMatches e.dom t.dom && cronFieldMatches e.month t.month &&
    cronFieldMatches e.dow t.dow

/-- Minute-of-hour of an epoch-millisecond timestamp (UTC). -/
def msMinute (ms : Nat) : Nat := ms / 60000 % 60

/-- Hour-of-day of an epoch-millisecond timestamp (UTC). -/
def msHour (ms : Nat) : Nat := ms / 3600000 % 24

/-! Concrete fixtures used by witnesses and counterexamples. -/

/-- An environment in which every collaborator step succeeds and the
process environment is empty. -/
def envOk : BrowserEnv := { procEnv := fun _ => none }

/-- An environment in which navigating to `https://a.example` throws and
everything else succeeds. -/
def envPartialFail : BrowserEnv :=
  { procEnv := fun _ => none,
    gotoFails := fun u => if u == "https://a.example" then some "net::ERR_FAIL" else none }

/-- An environment in which every navigation throws. -/
def envAllFail : BrowserEnv :=
  { procEnv := fun _ => none,
    gotoFails := fun _ => some "net::ERR_CONNECTION_REFUSED" }

/-- The three capture URLs of the `docsTriple` fixture: the first fails
under `envPartialFail`, the other two succeed. -/
def urlsTriple : List ScreenshotUrl :=
  [⟨"Alpha", "https://a.example"⟩, ⟨"Beta", "https://b.example"⟩,
   ⟨"Gamma", "https://c.example"⟩]

/-- A login-free target with three URLs. -/
def docsTriple : ScreenshotTarget :=
  { name := "Docs", requiresLogin := false, urls := some urlsTriple }

/-- A login-free target with two URLs, the spec's "Docs" scenario. -/
def docsTarget : ScreenshotTarget :=
  { name := "Docs", requiresLogin := false,
    urls := some [⟨"Home", "https://example.com"⟩, ⟨"About", "https://example.com/about"⟩] }

/-- A `requiresLogin` target whose login descriptor is absent, so
`performLogin` throws `Missing login configuration`. -/
def badLoginTarget : ScreenshotTarget :=
  { name := "Portal", requiresLogin := true,
    urls := some [⟨"Home", "https://p.example"⟩, ⟨"Admin", "https://p.example/admin"⟩] }

/-- A target whose URL list is present but empty. -/
def emptyTarget : ScreenshotTarget :=
  { name := "Empty", requiresLogin := false, urls := some [] }

/-- A login-free target with one URL, associated to cron job fixtures. -/
def target42 : ScreenshotTarget :=
  { name := "Answer", requiresLogin := false, urls := some [⟨"Home", "https://42.example"⟩] }

/-- A scheduler environment whose clock reads 1970-01-01T09:00:00.000Z
(epoch 32400000 ms, a Thursday) and whose node-cron accepts every
expression it is given. -/
def schedEnvAt9 : SchedEnv := { nowMs := 32400000, nodeCronValid := fun _ => true }

/-- The schedule expression `0 9 * * 1-5` as a parsed 5-field expression
(minute 0, hour 9, any day-of-month, any month, weekday 1-5). -/
def weekdayNineExpr : CronExpr := ⟨.num 0, .num 9, .star, .star, .range 1 5⟩

/-- An enabled job on `0 9 * * 1-5` with one associated target (id 7). -/
def morningJob : CronJob :=
  { id := 1, name := "morning", cronExpression := "0 9 * * 1-5", enabled := true,
    cronJobTargets := [⟨1, 7⟩] }

/-- An enabled job with one associated target (id 42). -/
def job42 : CronJob :=
  { id := 3, name := "nightly", cronExpression := "0 9 * * 1-5", enabled := true,
    cronJobTargets := [⟨3, 42⟩] }

/-- An enabled job that already has a stored `nextRun` (epoch 999999 ms). -/
def jobWithNext : CronJob :=
  { id := 2, name := "weekly", cronExpression := "0 9 * * 1-5", enabled := true,
    nextRun := some 999999, cronJobTargets := [⟨2, 7⟩] }

/-- The engine's outcome list for a run over `[docsTarget]` in `envOk`:
two outcomes for one target. -/
def docsRunResults : List ScreenshotResult :=
  match (captureAllScreenshots envOk ⟨false⟩ [docsTarget]).1 with
  | .ok rs => rs
  | .error _ => []

/-! Helper lemmas shared by the claim theorems. -/

theorem falsy_eq_false_iff (o : Option String) :
    falsy o = false ↔ ∃ s, o = some s ∧ s ≠ "" := by
  cases o with
  | none => simp [falsy]
  | some s => simp [falsy]

theorem closeBrowser_browserOpen (s : SvcState) : (closeBrowser s).browserOpen = false := by
  rcases s with ⟨b⟩
  cases b <;> simp [closeBrowser]

theorem captureScreenshot_snd (E : BrowserEnv) (t : ScreenshotTarget) :
    (captureScreenshot E ⟨true⟩ t).2 = ⟨true⟩ := by
  unfold captureScreenshot
  have hinit : initBrowser E ⟨true⟩ = .ok ⟨true⟩ := rfl
  rw [hinit]
  cases E.pageSetupFails with
  | some e => rfl
  | none =>
    cases t.requiresLogin with
    | false => rfl
    | true =>
      cases performLogin E t with
      | error e => rfl
      | ok u => rfl

theorem captureTargetsLoop_true (E : BrowserEnv) (ts : List ScreenshotTarget) :
    captureTargetsLoop E ⟨true⟩ ts =
      ((ts.map (fun t => (captureScreenshot E ⟨true⟩ t).1)).flatten, ⟨true⟩) := by
  induction ts with
  | nil => rfl
  | cons t ts ih =>
    show ((captureScreenshot E ⟨true⟩ t).1 ++
        (captureTargetsLoop E (captureScreenshot E ⟨true⟩ t).2 ts).1,
        (captureTargetsLoop E (captureScreenshot E ⟨true⟩ t).2 ts).2) = _
    rw [captureScreenshot_snd, ih]
    simp

/-- Claim C7 (batch contract): with the browser runtime able to launch,
`captureAllScreenshots` never throws — it returns the flat concatenation
of every target's outcome list, in order — and the service's browser
handle is closed and cleared when the call ends; moreover the handle is
closed at the end of the call in every environment whatsoever (even when
an individual target's processing throws internally, which the per-target
catch converts into failure outcomes). -/
theorem captureAllScreenshots_batch_contract (E : BrowserEnv) (s : SvcState)
    (targets : List ScreenshotTarget) (h : E.launchFails = none) :
    captureAllScreenshots E s targets =
      (.ok ((targets.map (fun t => (captureScreenshot E ⟨true⟩ t).1)).flatten),
        { browserOpen := false }) ∧
    ∀ (E2 : BrowserEnv) (s2 : SvcState) (ts2 : List ScreenshotTarget),
      ((captureAllScreenshots E2 s2 ts2).2).browserOpen = false := by
  constructor
  · have hinit : initBrowser E s = .ok ⟨true⟩ := by
      rcases s with ⟨b⟩
      cases b <;> simp [initBrowser, h]
    unfold captureAllScreenshots
    rw [hinit]
    show (Except.ok (captureTargetsLoop E ⟨true⟩ targets).1,
      closeBrowser (captureTargetsLoop E ⟨true⟩ targets).2) = _
    rw [captureTargetsLoop_true]
    rfl
  · intro E2 s2 ts2
    unfold captureAllScreenshots
    cases initBrowser E2 s2 with
    | error e => exact closeBrowser_browserOpen _
    | ok s1 => exact closeBrowser_browserOpen _

/-- Claim C7 witness: a concrete batch with a partially failing target. -/
theorem batch_contract_witness :
    captureAllScreenshots envPartialFail ⟨false⟩ [docsTriple, emptyTarget] =
      (.ok (([docsTriple, emptyTarget].map
        (fun t => (captureScreenshot envPartialFail ⟨true⟩ t).1)).flatten),
        { browserOpen := false }) ∧
    ∀ (E2 : BrowserEnv) (s2 : SvcState) (ts2 : List ScreenshotTarget),
      ((captureAllScreenshots E2 s2 ts2).2).browserOpen = false :=
  captureAllScreenshots_batch_contract envPartialFail ⟨false⟩ [docsTriple, emptyTarget] rfl

/-- Claim C1 (per-URL isolation): for a login-free target with a non-empty
URL list, given a live browser and a page, `captureScreenshot` returns
exactly the list mapping each CaptureUrl in order to its own
`captureScreenshotForUrl` outcome — so one URL's failure cannot suppress
the others — and every outcome carries its URL's label, a failed outcome
carrying an error message. -/
theorem captureScreenshot_perUrl_isolation (E : BrowserEnv) (t : ScreenshotTarget)
    (us : List ScreenshotUrl) (h1 : t.requiresLogin = false) (h2 : t.urls = some us)
    (h3 : us ≠ []) (h4 : E.pageSetupFails = none) :
    (captureScreenshot E ⟨true⟩ t).1 = us.map (captureScreenshotForUrl E t) ∧
    ∀ u ∈ us, (captureScreenshotForUrl E t u).urlName = some u.name ∧
      ((captureScreenshotForUrl E t u).success = false →
        (captureScreenshotForUrl E t u).error ≠ none) := by
  constructor
  · unfold captureScreenshot
    have hinit : initBrowser E ⟨true⟩ = .ok ⟨true⟩ := rfl
    rw [hinit]
    show ((match E.pageSetupFails with
      | some e => ([{ success := false, error := some e }], (⟨true⟩ : SvcState))
      | none =>
        if t.requiresLogin then
          match performLogin E t with
          | .error e => ([{ success := false, error := some e }], (⟨true⟩ : SvcState))
          | .ok _ => (captureUrls E t, (⟨true⟩ : SvcState))
        else (captureUrls E t, (⟨true⟩ : SvcState)) :
      List ScreenshotResult × SvcState)).1 = _
    rw [h4, h1]
    show captureUrls E t = _
    unfold captureUrls
    rw [h2]
    cases us with
    | nil => exact absurd rfl h3
    | cons u us => rfl
  · intro u _
    unfold captureScreenshotForUrl
    cases hg : E.gotoFails u.url with
    | some e => simp
    | none =>
      cases hm : E.mkdirFails with
      | some e => simp
      | none =>
        cases hs : E.screenshotFails u.url with
        | some e => simp
        | none => simp

/-- Claim C1 witness: three URLs under an environment where the first
URL's navigation throws. -/
theorem perUrl_isolation_witness :
    (captureScreenshot envPartialFail ⟨true⟩ docsTriple).1 =
      urlsTriple.map (captureScreenshotForUrl envPartialFail docsTriple) ∧
    ∀ u ∈ urlsTriple,
      (captureScreenshotForUrl envPartialFail docsTriple u).urlName = some u.name ∧
      ((captureScreenshotForUrl envPartialFail docsTriple u).success = false →
        (captureScreenshotForUrl envPartialFail docsTriple u).error ≠ none) :=
  captureScreenshot_perUrl_isolation envPartialFail docsTriple urlsTriple rfl rfl
    (by decide) rfl

/-- Claim C3 (login gating): for a `requiresLogin` target whose login step
throws (missing configuration, missing credentials, or any thrown
navigation / fill / submit step), `captureScreenshot` returns one single
target-level failure outcome carrying that error — with no URL label and
no per-URL outcome — whatever the target's URL list is. -/
theorem captureScreenshot_login_gating (E : BrowserEnv) (t : ScreenshotTarget) (e : String)
    (h1 : t.requiresLogin = true) (h2 : E.pageSetupFails = none)
    (h3 : performLogin E t = .error e) :
    (captureScreenshot E ⟨true⟩ t).1 = [{ success := false, error := some e }] ∧
    ∀ urlList : Option (List ScreenshotUrl),
      (captureScreenshot E ⟨true⟩ { t with urls := urlList }).1 =
        [{ success := false, error := some e }] := by
  have main : ∀ t2 : ScreenshotTarget, t2.requiresLogin = true →
      performLogin E t2 = .error e →
      (captureScreenshot E ⟨true⟩ t2).1 = [{ success := false, error := some e }] := by
    intro t2 hreq hlog
    unfold captureScreenshot
    have hinit : initBrowser E ⟨true⟩ = .ok ⟨true⟩ := rfl
    rw [hinit]
    show ((match E.pageSetupFails with
      | some e2 => ([{ success := false, error := some e2 }], (⟨true⟩ : SvcState))
      | none =>
        if t2.requiresLogin then
          match performLogin E t2 with
          | .error e2 => ([{ success := false, error := some e2 }], (⟨true⟩ : SvcState))
          | .ok _ => (captureUrls E t2, (⟨true⟩ : SvcState))
        else (captureUrls E t2, (⟨true⟩ : SvcState)) :
      List ScreenshotResult × SvcState)).1 = _
    rw [h2, hreq, hlog]
    rfl
  refine ⟨main t h1 h3, fun urlList => main { t with urls := urlList } h1 ?_⟩
  show performLogin E t = .error e
  exact h3

/-- Claim C3 witness: a login-required target with an absent login
descriptor and two configured URLs. -/
theorem login_gating_witness :
    (captureScreenshot envOk ⟨true⟩ badLoginTarget).1 =
      [{ success := false, error := some "Missing login configuration" }] ∧
    ∀ urlList : Option (List ScreenshotUrl),
      (captureScreenshot envOk ⟨true⟩ { badLoginTarget with urls := urlList }).1 =
        [{ success := false, error := some "Missing login configuration" }] :=
  captureScreenshot_login_gating envOk badLoginTarget "Missing login configuration" rfl rfl rfl

/-- Claim C8 (zero-URL target): for a target whose URL list is empty or
absent, with the page available and the login step not failing first,
`captureScreenshot` returns exactly one failed outcome carrying the
configuration-error message — never zero outcomes and never a throw. -/
theorem captureScreenshot_zero_url (E : BrowserEnv) (t : ScreenshotTarget)
    (h1 : t.urls = none ∨ t.urls = some [])
    (h2 : E.pageSetupFails = none)
    (h3 : t.requiresLogin = false ∨ performLogin E t = .ok ()) :
    (captureScreenshot E ⟨true⟩ t).1 =
      [{ success := false, error := some "No URLs defined for this target" }] := by
  unfold captureScreenshot
  have hinit : initBrowser E ⟨true⟩ = .ok ⟨true⟩ := rfl
  rw [hinit]
  show ((match E.pageSetupFails with
    | some e => ([{ success := false, error := some e }], (⟨true⟩ : SvcState))
    | none =>
      if t.requiresLogin then
        match performLogin E t with
        | .error e => ([{ success := false, error := some e }], (⟨true⟩ : SvcState))
        | .ok _ => (captureUrls E t, (⟨true⟩ : SvcState))
      else (captureUrls E t, (⟨true⟩ : SvcState)) :
    List ScreenshotResult × SvcState)).1 = _
  rw [h2]
  have hurls : captureUrls E t =
      [{ success := false, error := some "No URLs defined for this target" }] := by
    unfold captureUrls
    rcases h1 with h | h <;> rw [h]
  rcases h3 with h | h
  · rw [h]
    exact hurls
  · cases hreq : t.requiresLogin with
    | false => exact hurls
    | true =>
      show ((match performLogin E t with
        | .error e => ([{ success := false, error := some e }], (⟨true⟩ : SvcState))
        | .ok _ => (captureUrls E t, (⟨true⟩ : SvcState)) :
        List ScreenshotResult × SvcState)).1 = _
      rw [h]
      exact hurls

/-- Claim C8 witness: a login-free target with an empty URL list. -/
theorem zero_url_witness :
    (captureScreenshot envOk ⟨true⟩ emptyTarget).1 =
      [{ success := false, error := some "No URLs defined for this target" }] :=
  captureScreenshot_zero_url envOk emptyTarget (Or.inr rfl) rfl (Or.inl rfl)

/-- Claim C9 (credential resolution): for every pair of key names,
resolution succeeds exactly when both named values are present and
non-empty in the process environment; on failure the error is the string
built from the two key names alone — it names the missing key(s) and is
independent of whatever secret values are stored, so no secret value can
be embedded in it. -/
theorem resolveCredentials_contract (env : String → Option String) (uk pk : String) :
    ((∃ u p, resolveCredentials env uk pk = .ok (u, p)) ↔
      ((∃ u, env uk = some u ∧ u ≠ "") ∧ (∃ p, env pk = some p ∧ p ≠ ""))) ∧
    (∀ e, resolveCredentials env uk pk = .error e →
      e = "Missing credentials in environment variables: " ++ uk ++ ", " ++ pk) := by
  by_cases hcase : (falsy (env uk) || falsy (env pk)) = true
  · have hres : resolveCredentials env uk pk =
        .error ("Missing credentials in environment variables: " ++ uk ++ ", " ++ pk) := by
      simp [resolveCredentials, hcase]
    constructor
    · constructor
      · rintro ⟨u, p, h⟩
        rw [hres] at h
        exact absurd h (by simp)
      · rintro ⟨⟨u, hu, hu2⟩, ⟨p, hp, hp2⟩⟩
        rw [hu, hp] at hcase
        simp only [falsy, Bool.or_eq_true, beq_iff_eq] at hcase
        rcases hcase with h | h
        · exact absurd h hu2
        · exact absurd h hp2
    · intro e he
      rw [hres] at he
      exact (Except.error.inj he).symm
  · have h2 : (falsy (env uk) || falsy (env pk)) = false := by
      simpa using hcase
    have hres : resolveCredentials env uk pk =
        .ok ((env uk).getD "", (env pk).getD "") := by
      simp [resolveCredentials, h2]
    rw [Bool.or_eq_false_iff] at h2
    constructor
    · constructor
      · intro _
        exact ⟨(falsy_eq_false_iff _).mp h2.1, (falsy_eq_false_iff _).mp h2.2⟩
      · intro _
        exact ⟨_, _, hres⟩
    · intro e he
      rw [hres] at he
      exact absurd he (by simp)

/-- Claim C2 evaluated at a failing input (the code's bug): the
scheduler's `executeScreenshotsForTargets` is a placeholder that reports
one success per target id without invoking the Capture Engine, so
`executeCronJob` on a job covering target 42 reports `successCount = 1`
and `failureCount = 0` even in an environment where the engine's actual
run over that target produces only failed outcomes. -/
theorem executeCronJob_placeholder_bug :
    (executeCronJob schedEnvAt9 job42).2 =
      some { successCount := 1, failureCount := 0,
             results := [{ targetId := 42, success := true }] } ∧
    (captureAllScreenshots envAllFail ⟨false⟩ [target42]).1 =
      .ok [{ success := false, error := some "net::ERR_CONNECTION_REFUSED",
             urlName := some "Home" }] :=
  ⟨rfl, rfl⟩

/-- Claim C5 evaluated at a failing input (the code's bug): for the
enabled job on `0 9 * * 1-5` firing at 1970-01-01T09:00:00Z (epoch
32400000 ms, a Thursday — an instant matching the expression),
`executeCronJob` stores `nextRun` = now + 60000 ms, whose minute-of-hour
is 1; no timestamp with minute 1 matches the expression, whatever its
calendar day, so the stored `nextRun` is a fixed offset, not the next
matching time. -/
theorem calculateNextRun_fixed_offset_bug :
    (executeCronJob schedEnvAt9 morningJob).1.nextRun = some 32460000 ∧
    cronMatches weekdayNineExpr ⟨0, 9, 1, 1, 4⟩ = true ∧
    msMinute 32460000 = 1 ∧
    ∀ dom month dow : Nat,
      cronMatches weekdayNineExpr
        ⟨msMinute 32460000, msHour 32460000, dom, month, dow⟩ = false :=
  ⟨rfl, rfl, rfl, fun _ _ _ => rfl⟩

/-- Claim C4 counterexample: on a job whose stored `nextRun` is epoch
999999 ms, the manual-trigger route leaves `nextRun` at 999999 while a
timer fire of `executeCronJob` at the same instant writes 32460000 — so
manual triggering does not update `nextRun` as a scheduled fire would. -/
theorem trigger_parity_cex :
    triggerCronJobPOST schedEnvAt9 jobWithNext =
      .ok ({ jobWithNext with lastRun := some 32400000 },
           { successCount := 1, failureCount := 0,
             results := [{ targetId := 7, success := true }] }) ∧
    ({ jobWithNext with lastRun := some 32400000 } : CronJob).nextRun = some 999999 ∧
    (executeCronJob schedEnvAt9 jobWithNext).1.nextRun = some 32460000 ∧
    (999999 : Nat) ≠ 32460000 :=
  ⟨rfl, rfl, rfl, by decide⟩

/-- Claim C4 amended: manual triggering runs the route's own duplicated
execution helper and writes the same `lastRun` a timer fire would, but it
writes only `lastRun` — the triggered job's `nextRun` is left unchanged,
whereas a timer fire of `executeCronJob` recomputes `nextRun` as well. -/
theorem trigger_updates_only_lastRun (E : SchedEnv) (job : CronJob)
    (h : job.cronJobTargets ≠ []) :
    triggerCronJobPOST E job =
      .ok ({ job with lastRun := some E.nowMs },
        triggerExecuteScreenshotsForTargets
          (job.cronJobTargets.map (fun cjt => cjt.targetId))) ∧
    ({ job with lastRun := some E.nowMs } : CronJob).nextRun = job.nextRun ∧
    (executeCronJob E job).1.lastRun = some E.nowMs ∧
    (executeCronJob E job).1.nextRun = some (calculateNextRun E job.cronExpression) := by
  have hlen : (job.cronJobTargets.length == 0) = false := by
    simp only [beq_eq_false_iff_ne, ne_eq, List.length_eq_zero]
    exact h
  refine ⟨?_, rfl, ?_, ?_⟩
  · unfold triggerCronJobPOST
    rw [hlen]
    rfl
  · unfold executeCronJob
    split <;> rfl
  · unfold executeCronJob
    split <;> rfl

/-- Claim C4 witness: the amended statement at the morning job. -/
theorem trigger_only_lastRun_witness :
    triggerCronJobPOST schedEnvAt9 morningJob =
      .ok ({ morningJob with lastRun := some schedEnvAt9.nowMs },
        triggerExecuteScreenshotsForTargets
          (morningJob.cronJobTargets.map (fun cjt => cjt.targetId))) ∧
    ({ morningJob with lastRun := some schedEnvAt9.nowMs } : CronJob).nextRun =
      morningJob.nextRun ∧
    (executeCronJob schedEnvAt9 morningJob).1.lastRun = some schedEnvAt9.nowMs ∧
    (executeCronJob schedEnvAt9 morningJob).1.nextRun =
      some (calculateNextRun schedEnvAt9 morningJob.cronExpression) :=
  trigger_updates_only_lastRun schedEnvAt9 morningJob (by decide)

/-- Claim C6 counterexample: `x 9 * * *`, whose first field is not of the
shape `*` / number / `a-b` / `*/n`, is nevertheless accepted by the
validation rule applied before a job is persisted (its error list is
empty), refuting the claimed rejection of unparseable fields. -/
theorem cronExpression_badField_accepted_cex :
    cronExpressionErrors "x 9 * * *" = [] := by decide

/-- Claim C6 amended: the persisted-validation rule accepts
`0 9 * * 1-5` and rejects `* * * *`, but it checks only that the
expression is 9-100 characters long and has exactly five
whitespace-separated fields — the shape of the individual fields is not
checked, so `x 9 * * *` is accepted at validation time. -/
theorem cronExpression_validation_amended :
    cronExpressionErrors "0 9 * * 1-5" = [] ∧
    cronExpressionErrors "* * * *" ≠ [] ∧
    cronExpressionErrors "x 9 * * *" = [] ∧
    ∀ s : String, cronExpressionErrors s = [] ↔
      (9 ≤ s.length ∧ s.length ≤ 100 ∧ cronFieldCount s = 5) := by
  refine ⟨by decide, by decide, by decide, ?_⟩
  intro s
  unfold cronExpressionErrors
  by_cases h0 : (s == "") = true
  · have hs : s = "" := by simpa using h0
    subst hs
    simp
  · rw [Bool.not_eq_true] at h0
    rw [h0]
    simp only [Bool.false_eq_true, if_false]
    constructor
    · intro h
      rw [List.append_eq_nil, List.append_eq_nil] at h
      obtain ⟨⟨ha, hb⟩, hc⟩ := h
      refine ⟨?_, ?_, ?_⟩
      · by_contra hlt
        rw [if_pos (by omega)] at ha
        exact absurd ha (by simp)
      · by_contra hgt
        rw [if_pos (by omega)] at hb
        exact absurd hb (by simp)
      · by_contra hne
        rw [if_neg (by simpa using hne)] at hc
        exact absurd hc (by simp)
    · rintro ⟨ha, hb, hc⟩
      rw [if_neg (by omega), if_neg (by omega), if_pos (by simpa using hc)]
      rfl

/-- Claim C10 counterexample: the run over the single two-URL target
`docsTarget` produces 2 outcomes, but the route's summary reports
`totalTargets = 1` — the summary's total is the number of targets, not
the length of the outcome list. -/
theorem summarizeRun_total_cex :
    (summarizeRun [docsTarget] docsRunResults).totalTargets = 1 ∧
    docsRunResults.length = 2 ∧
    (summarizeRun [docsTarget] docsRunResults).totalTargets ≠ docsRunResults.length := by
  refine ⟨rfl, rfl, by decide⟩

/-- Claim C10 amended: for every target list and outcome list, the
summary's success count is the number of outcomes with `success = true`,
its failure count the number with `success = false`, the two counts sum
to the length of the outcome list, the outcome list is preserved
unchanged, and the total is the length of the *target* list (which can
differ from the outcome count when targets have several URLs). -/
theorem summarizeRun_amended (targets : List ScreenshotTarget)
    (results : List ScreenshotResult) :
    (summarizeRun targets results).successCount = results.countP (fun r => r.success) ∧
    (summarizeRun targets results).failureCount = results.countP (fun r => !r.success) ∧
    (summarizeRun targets results).successCount + (summarizeRun targets results).failureCount
      = results.length ∧
    (summarizeRun targets results).results = results ∧
    (summarizeRun targets results).totalTargets = targets.length := by
  refine ⟨?_, ?_, ?_, rfl, rfl⟩
  · simp [summarizeRun, List.countP_eq_length_filter]
  · simp [summarizeRun, List.countP_eq_length_filter]
  · show (results.filter (fun r => r.success)).length +
      (results.filter (fun r => !r.success)).length = results.length
    induction results with
    | nil => rfl
    | cons r rs ih =>
      by_cases h : r.success = true <;> simp [List.filter, h] <;> omega

end Orbis

